import Mathlib

/-!
Verification of the Addisland locator's coordinate pipeline (src/app.py).

Shallow embedding conventions:
* Floating-point numbers are modelled as rationals (ℚ); NumPy's `mean`,
  broadcast addition and `column_stack` become exact list arithmetic.
* The HTML document fetched by `requests.get` and parsed by BeautifulSoup is
  abstracted to its observable content: a list of tables, each carrying the
  stripped text of its `<span>` elements and, per `<tr>` row, the stripped
  texts of its `<td>` cells.  Cell texts are taken to be ASCII, so Python's
  Unicode-aware `str.isdigit` coincides with a plain all-digits check.
* External numerical collaborators (`utm.to_latlon`, the scipy RBF kernel)
  are parameters of the embedded functions; the RBF fit itself is modelled
  from the spec (see `rbfFit`).
-/

namespace Addisland

/-! ## Document model (input to `extract_coordinates_from_addisland`) -/

/-- One HTML `<table>`: the stripped texts of its `<span>`s (searched for the
marker) and, for each `<tr>`, the stripped texts of its `<td>` cells. -/
structure HtmlTable where
  spanTexts : List String
  rows : List (List String)
deriving DecidableEq, Repr

/-- Outcome of `requests.get` + `raise_for_status` in
`extract_coordinates_from_addisland` (src/app.py lines 76-83): either the
fetched document's tables, or a `RequestException` (connection error or
non-2xx status).  A failed response still has a body; it is carried so that
independence of the result from it can be stated. -/
inductive FetchOutcome where
  | ok (tables : List HtmlTable)
  | error (tables : List HtmlTable)
deriving DecidableEq, Repr

/-- Character-list prefix test (used to embed Python's `in` substring test). -/
def listPrefixEq : List Char → List Char → Bool
  | [], _ => true
  | _ :: _, [] => false
  | a :: as, b :: bs => a == b && listPrefixEq as bs

/-- Python's `needle in hay` substring containment. -/
def strContainsSub (hay needle : String) : Bool :=
  (List.range (hay.toList.length + 1)).any fun i =>
    listPrefixEq needle.toList (hay.toList.drop i)

/-- The marker substring identifying the coordinates table
(src/app.py line 103). -/
def marker : String := "Cordnates/"

/-- `any("Cordnates/" in text for text in span_texts)` (src/app.py line 103). -/
def tableHasMarker (t : HtmlTable) : Bool :=
  t.spanTexts.any fun s => strContainsSub s marker

/-- Python's `s.replace(".", "", 1)` on a single-character needle: drop the
first occurrence of `c`, keep the rest. -/
def removeFirstChar (c : Char) : List Char → List Char
  | [] => []
  | a :: as => if a == c then as else a :: removeFirstChar c as

/-- Python's `str.isdigit` restricted to ASCII: non-empty and all digits. -/
def pyIsdigit (l : List Char) : Bool := !l.isEmpty && l.all Char.isDigit

/-- `x.replace(".", "", 1).isdigit()` (src/app.py line 118). -/
def numericCell (s : String) : Bool := pyIsdigit (removeFirstChar '.' s.toList)

/-- One iteration of the row loop (src/app.py lines 111-121): a row is kept
iff it has exactly two `<td>` cells and both cell texts pass `numericCell`.
The accepted cell texts are returned (the source converts them with `float`;
the numeric value plays no role in the claims, so the texts are kept). -/
def rowToCoord (row : List String) : Option (String × String) :=
  match row with
  | [x, y] => if numericCell x && numericCell y then some (x, y) else none
  | _ => none

/-- The row loop of src/app.py lines 109-121, as the explicit recursion the
`for` loop performs (append to `coordinate_data` when the row is accepted,
silently skip otherwise). -/
def scanRows : List (List String) → List (String × String)
  | [] => []
  | row :: rest =>
    match rowToCoord row with
    | some p => p :: scanRows rest
    | none => scanRows rest

/-- `coordinate_data` computed from the selected table: the row loop applied
to `rows[1:]` (header row skipped, src/app.py line 111). -/
def coordinateData (t : HtmlTable) : List (String × String) :=
  scanRows (t.rows.drop 1)

/-- `url = f"https://www.addisland.gov.et/en-us/certificate/{title_deed_number}"`
(src/app.py line 73). -/
def urlFor (deed : String) : String :=
  "https://www.addisland.gov.et/en-us/certificate/" ++ deed

/-- The success payload (src/app.py line 135). -/
structure ExtractOk where
  easting_northing_matrix : List (String × String)
  addisland_url : String
deriving DecidableEq, Repr

/-- TransportFailure message (src/app.py line 83). -/
def serverProblemMsg : String :=
  "❌ Server Problem: Failed to get response. Please retry later."

/-- NoDataFailure message (src/app.py line 138). -/
def noCoordinatesMsg : String := "❌ No valid coordinates found."

/-- ParseFailure message (src/app.py line 142). -/
def invalidDeedMsg : String :=
  "❌ Invalid Title Deed Number: Please enter correct title deed number."

/-- `extract_coordinates_from_addisland` (src/app.py lines 68-142).
On a fetch error the transport-failure pair is returned before any parsing.
Otherwise the first table whose span texts contain the marker is selected
(`for ... break` = `List.find?`).  When no table matches, `selected_table`
stays `None` and line 108 (`selected_table.find_all("tr")`) raises
`AttributeError`, which the blanket `except Exception` of line 140 turns
into the invalid-deed-number pair — that exceptional path is embedded as the
`none` branch here.  With a table selected, the row loop yields
`coordinate_data`; a non-empty result is returned with the source URL,
an empty one yields the no-valid-coordinates pair. -/
def extract_coordinates_from_addisland (deed : String) (fetch : FetchOutcome) :
    Option ExtractOk × String :=
  match fetch with
  | .error _ => (none, serverProblemMsg)
  | .ok tables =>
    match tables.find? tableHasMarker with
    | none => (none, invalidDeedMsg)
    | some t =>
      let data := coordinateData t
      if data.isEmpty then (none, noCoordinatesMsg)
      else (some ⟨data, urlFor deed⟩, "Success")

/-! ## Calibration model (`generate_precalibrated_matrix`, src/app.py 12-66) -/

/-- `given_easting` (src/app.py line 35). -/
def given_easting : Fin 3 → ℚ := ![477504.6975, 482977.07875, 487741.8536]

/-- `given_northing` (src/app.py line 36). -/
def given_northing : Fin 3 → ℚ := ![980922.813, 992734.94275, 993586.1784]

/-- `easting_calib_req` (src/app.py line 37). -/
def easting_calib_req : Fin 3 → ℚ := ![90.6484, 92.6484, 94.6484]

/-- `northing_calib_req` (src/app.py line 38). -/
def northing_calib_req : Fin 3 → ℚ := ![204.2779, 210.2779, 208.2779]

/-- The `i`-th calibration reference position (row of `points`,
src/app.py line 45). -/
def refPoint (i : Fin 3) : ℚ × ℚ := (given_easting i, given_northing i)

/-- Squared Euclidean distance between two positions. -/
def sqdist (p q : ℚ × ℚ) : ℚ := (p.1 - q.1) ^ 2 + (p.2 - q.2) ^ 2

/-- Modelled from the spec: the evaluation form of scipy's `RBFInterpolator`
(the library is not part of src/).  With the three reference positions as
centres, an interpolant is a radial part (weights `w` against a kernel `φ`
of the squared distance to each centre) plus the degree-one polynomial tail
`c 0 + c 1 * easting + c 2 * northing`.  The kernel is kept abstract: every
fit proved below has `w = 0`, so no kernel value is ever needed. -/
def rbfEval (φ : ℚ → ℚ) (w c : Fin 3 → ℚ) (p : ℚ × ℚ) : ℚ :=
  (∑ j, w j * φ (sqdist p (refPoint j))) + (c 0 + c 1 * p.1 + c 2 * p.2)

/-- Modelled from the spec: the zero-smoothing fitting conditions of scipy's
`RBFInterpolator` for data `f` at the three reference positions — exact
interpolation at each centre, plus the moment (orthogonality) conditions
that make the augmented radial-basis system square. -/
def rbfFit (φ : ℚ → ℚ) (f w c : Fin 3 → ℚ) : Prop :=
  (∀ i, rbfEval φ w c (refPoint i) = f i) ∧
  (∑ j, w j = 0) ∧ (∑ j, w j * given_easting j = 0) ∧
  (∑ j, w j * given_northing j = 0)

/-- The zero radial weight vector. -/
def wZero : Fin 3 → ℚ := fun _ => 0

/-- Polynomial-tail coefficients of the easting-correction fit (exact
rational solution of the three interpolation equations with `w = 0`). -/
def cEast : Fin 3 → ℚ :=
  ![-439992266894801420611 / 5162385274734522500,
    876871528000 / 2064954109893809,
    -56608512000 / 2064954109893809]

/-- Polynomial-tail coefficients of the northing-correction fit (exact
rational solution of the three interpolation equations with `w = 0`). -/
def cNorth : Fin 3 → ℚ :=
  ![-5805641627794448464789 / 20649541098938090000,
    -1149266936000 / 2064954109893809,
    1581336464000 / 2064954109893809]

/-- `np.mean` of the easting column and of the northing column
(src/app.py lines 41-42), exact over ℚ. -/
def this_mean (m : List (ℚ × ℚ)) : ℚ × ℚ :=
  ((m.map Prod.fst).sum / m.length, (m.map Prod.snd).sum / m.length)

/-- `generate_precalibrated_matrix` (src/app.py lines 12-66), parameterised
by the two fitted correction fields `Fe`, `Fn` (the scipy interpolants, see
`rbfEval`).  The field is evaluated once at the column means, and the
resulting pair is broadcast-added to every row. -/
def generate_precalibrated_matrix (Fe Fn : ℚ × ℚ → ℚ) (m : List (ℚ × ℚ)) :
    List (ℚ × ℚ) :=
  let calib_value_eastings := Fe (this_mean m)
  let calib_value_northings := Fn (this_mean m)
  m.map fun p => (p.1 + calib_value_eastings, p.2 + calib_value_northings)

/-! ## Projection pipeline (`convert_eastings_northings_to_lats_lons`,
src/app.py 145-171) -/

/-- `zone = 37` (src/app.py line 153). -/
def zone : ℕ := 37

/-- The latitudes accumulated by the loop of src/app.py lines 162-165:
`utm.to_latlon(e, n, zone, northern=True)` applied to each precalibrated
row.  `toLatLon` abstracts the external `utm` library. -/
def computed_lats (toLatLon : ℚ → ℚ → ℕ → Bool → ℚ × ℚ)
    (Fe Fn : ℚ × ℚ → ℚ) (m : List (ℚ × ℚ)) : List ℚ :=
  (generate_precalibrated_matrix Fe Fn m).map fun p =>
    (toLatLon p.1 p.2 zone true).1

/-- The longitudes accumulated by the loop of src/app.py lines 162-165. -/
def computed_lons (toLatLon : ℚ → ℚ → ℕ → Bool → ℚ × ℚ)
    (Fe Fn : ℚ × ℚ → ℚ) (m : List (ℚ × ℚ)) : List ℚ :=
  (generate_precalibrated_matrix Fe Fn m).map fun p =>
    (toLatLon p.1 p.2 zone true).2

/-- `convert_eastings_northings_to_lats_lons` (src/app.py lines 145-171):
empty input returns `None` (line 149-150) before the calibration model is
consulted; otherwise each precalibrated row is projected and the ring is
closed by appending the first latitude and longitude (lines 168-169; the
`headD 0` default is never taken, the lists being non-empty). -/
def convert_eastings_northings_to_lats_lons
    (toLatLon : ℚ → ℚ → ℕ → Bool → ℚ × ℚ) (Fe Fn : ℚ × ℚ → ℚ)
    (m : List (ℚ × ℚ)) : Option (List ℚ × List ℚ) :=
  match m with
  | [] => none
  | _ :: _ =>
    let lats := computed_lats toLatLon Fe Fn m
    let lons := computed_lons toLatLon Fe Fn m
    some (lats ++ [lats.headD 0], lons ++ [lons.headD 0])

/-- The map-centering point `np.mean(computed_lats), np.mean(computed_lons)`
(src/app.py line 179 in `plot_lats_lons_on_map`; the identical expression
appears at line 219 in `index`). -/
def map_center (lats lons : List ℚ) : ℚ × ℚ :=
  (lats.sum / lats.length, lons.sum / lons.length)

/-! ## Helper lemmas -/

/-- `rowToCoord` only accepts a row that is literally its two cell texts. -/
lemma rowToCoord_eq_some {row : List String} {p : String × String}
    (h : rowToCoord row = some p) : row = [p.1, p.2] := by
  match row with
  | [x, y] =>
    by_cases hn : (numericCell x && numericCell y) = true
    · simp [rowToCoord, hn] at h
      simp [← h]
    · simp [rowToCoord, hn] at h
  | [] => simp [rowToCoord] at h
  | [_] => simp [rowToCoord] at h
  | _ :: _ :: _ :: _ => simp [rowToCoord] at h

/-- The row loop is the order-preserving filter-map of the acceptance test. -/
lemma scanRows_eq_filterMap (rs : List (List String)) :
    scanRows rs = rs.filterMap rowToCoord := by
  induction rs with
  | nil => rfl
  | cons row rest ih =>
    cases h : rowToCoord row <;>
      simp [scanRows, List.filterMap_cons, h, ih]

/-- The accepted rows form a subsequence of the scanned rows. -/
lemma scanRows_sublist (rs : List (List String)) :
    ((scanRows rs).map fun p => [p.1, p.2]).Sublist rs := by
  induction rs with
  | nil => simp [scanRows]
  | cons row rest ih =>
    cases h : rowToCoord row with
    | none => simpa [scanRows, h] using ih.cons row
    | some p =>
      have hrow := rowToCoord_eq_some h
      simpa [scanRows, h, ← hrow] using ih.cons₂ row

/-- Calibration preserves the number of rows. -/
lemma gen_length (Fe Fn : ℚ × ℚ → ℚ) (m : List (ℚ × ℚ)) :
    (generate_precalibrated_matrix Fe Fn m).length = m.length := by
  simp [generate_precalibrated_matrix]

/-- Row `i` of the precalibrated matrix is row `i` of the input plus the
single correction pair evaluated at the batch mean. -/
lemma gen_getD (Fe Fn : ℚ × ℚ → ℚ) (m : List (ℚ × ℚ)) (i : ℕ)
    (hi : i < m.length) :
    (generate_precalibrated_matrix Fe Fn m).getD i (0, 0) =
      ((m.getD i (0, 0)).1 + Fe (this_mean m),
       (m.getD i (0, 0)).2 + Fn (this_mean m)) := by
  simp [generate_precalibrated_matrix, List.getD_eq_getElem?_getD,
    List.getElem?_eq_getElem hi, List.getElem?_map]

/-- With zero radial weights the interpolant is its polynomial tail,
whatever the kernel. -/
lemma rbfEval_wZero (φ : ℚ → ℚ) (c : Fin 3 → ℚ) (p : ℚ × ℚ) :
    rbfEval φ wZero c p = c 0 + c 1 * p.1 + c 2 * p.2 := by
  simp [rbfEval, wZero]

/-- `wZero` and `cEast` solve the zero-smoothing system for the easting
corrections, for every kernel. -/
lemma rbfFit_east (φ : ℚ → ℚ) : rbfFit φ easting_calib_req wZero cEast := by
  refine ⟨fun i => ?_, by simp [wZero], by simp [wZero], by simp [wZero]⟩
  rw [rbfEval_wZero]
  fin_cases i <;>
    norm_num [cEast, refPoint, given_easting, given_northing, easting_calib_req]

/-- `wZero` and `cNorth` solve the zero-smoothing system for the northing
corrections, for every kernel. -/
lemma rbfFit_north (φ : ℚ → ℚ) : rbfFit φ northing_calib_req wZero cNorth := by
  refine ⟨fun i => ?_, by simp [wZero], by simp [wZero], by simp [wZero]⟩
  rw [rbfEval_wZero]
  fin_cases i <;>
    norm_num [cNorth, refPoint, given_easting, given_northing, northing_calib_req]

/-- The three reference positions are not collinear, so the moment
conditions force the radial weights of ANY zero-smoothing fit to vanish:
the fitted field is exactly the affine tail. -/
lemma rbfFit_weights_zero (φ : ℚ → ℚ) (f w c : Fin 3 → ℚ)
    (h : rbfFit φ f w c) : w = wZero := by
  obtain ⟨-, h1, h2, h3⟩ := h
  rw [Fin.sum_univ_three] at h1 h2 h3
  simp only [given_easting, given_northing, Matrix.cons_val_zero,
    Matrix.cons_val_one, Matrix.head_cons, Matrix.cons_val_two,
    Matrix.tail_cons] at h2 h3
  funext j
  fin_cases j
  · show w 0 = wZero 0
    rw [show wZero 0 = 0 from rfl]
    linear_combination (172761247214661296 / 2064954109893809 : ℚ) * h1 +
      (34049426000 / 2064954109893809 : ℚ) * h2 +
      (-190590994000 / 2064954109893809 : ℚ) * h3
  · show w 1 = wZero 1
    rw [show wZero 1 = 0 from rfl]
    linear_combination (-159801739762925712 / 2064954109893809 : ℚ) * h1 +
      (-506534616000 / 2064954109893809 : ℚ) * h2 +
      (409486244000 / 2064954109893809 : ℚ) * h3
  · show w 2 = wZero 2
    rw [show wZero 2 = 0 from rfl]
    linear_combination (-10894553341841775 / 2064954109893809 : ℚ) * h1 +
      (472485190000 / 2064954109893809 : ℚ) * h2 +
      (-218895250000 / 2064954109893809 : ℚ) * h3

/-! ## Concrete documents used to exercise the extraction claims -/

/-- A table whose span texts do not contain the marker, with a perfectly
valid coordinate row: only the missing marker is at issue. -/
def noMarkerTable : HtmlTable :=
  ⟨["Parcel Owner", "Area"], [["E", "N"], ["12.5", "34.5"]]⟩

/-- A marked coordinates table whose single data row fails the numeric
check, so zero rows are accepted. -/
def markerNoRowsTable : HtmlTable :=
  ⟨["Cordnates/ X,Y"], [["Easting", "Northing"], ["abc", "45.6"]]⟩

/-- A marked coordinates table with two valid data rows and one invalid
row between them. -/
def demoTable : HtmlTable :=
  ⟨["Cordnates/ X,Y"],
   [["Easting", "Northing"], ["12.3", "45.6"], ["12.3", "abc"], ["7", "8"]]⟩

/-- Sanity evaluation: the invalid middle row of `demoTable` is skipped and
order is preserved. -/
lemma coordinateData_demoTable :
    coordinateData demoTable = [("12.3", "45.6"), ("7", "8")] := by decide

/-! ## Claims -/

/-- C1, counterexample: in a document whose tables all lack the marker
substring, extraction does NOT produce the NoDataFailure message — the
`None` table lookup raises, and the blanket handler produces the
ParseFailure message instead. -/
theorem marker_absent_not_nodata_cex :
    (∀ t ∈ [noMarkerTable], tableHasMarker t = false) ∧
    extract_coordinates_from_addisland "12345" (.ok [noMarkerTable]) ≠
      (none, noCoordinatesMsg) := by
  constructor
  · decide
  · intro h
    have : invalidDeedMsg = noCoordinatesMsg := congrArg Prod.snd h
    simp [invalidDeedMsg, noCoordinatesMsg] at this

/-- C1, amended: when the marker substring is absent from every table of
the fetched document, `extract_coordinates_from_addisland` fails with the
ParseFailure ("invalid title deed number") message — the missing table
leaves `selected_table = None`, line 108 raises `AttributeError`, and the
generic handler of lines 140-142 reports it — not with NoDataFailure. -/
theorem marker_absent_parse_failure (deed : String) (tables : List HtmlTable)
    (h : ∀ t ∈ tables, tableHasMarker t = false) :
    extract_coordinates_from_addisland deed (.ok tables) =
      (none, invalidDeedMsg) := by
  have hf : tables.find? tableHasMarker = none := by
    rw [List.find?_eq_none]
    intro t ht
    simp [h t ht]
  simp [extract_coordinates_from_addisland, hf]

/-- Witness for C1 (amended) at a concrete document. -/
theorem marker_absent_parse_failure_witness :
    (∀ t ∈ [noMarkerTable], tableHasMarker t = false) ∧
    extract_coordinates_from_addisland "12345" (.ok [noMarkerTable]) =
      (none, invalidDeedMsg) :=
  ⟨by decide, marker_absent_parse_failure "12345" [noMarkerTable] (by decide)⟩

/-- C3: when the coordinates table is found, the extracted sequence is
exactly the in-order filter-map of the data rows below the header under the
two-numeric-cells acceptance test, and (mapped back to rows) it is a
subsequence of those data rows; rejected rows are skipped without any
error, `coordinateData` being total. -/
theorem extraction_rows_filter_subseq (tables : List HtmlTable)
    (t : HtmlTable) (_hf : tables.find? tableHasMarker = some t) :
    coordinateData t = (t.rows.drop 1).filterMap rowToCoord ∧
    ((coordinateData t).map fun p => [p.1, p.2]).Sublist (t.rows.drop 1) :=
  ⟨scanRows_eq_filterMap _, scanRows_sublist _⟩

/-- Witness for C3 at a concrete document containing an invalid row. -/
theorem extraction_rows_filter_subseq_witness :
    [demoTable].find? tableHasMarker = some demoTable ∧
    (coordinateData demoTable =
        (demoTable.rows.drop 1).filterMap rowToCoord ∧
      ((coordinateData demoTable).map fun p => [p.1, p.2]).Sublist
        (demoTable.rows.drop 1)) :=
  ⟨by decide, extraction_rows_filter_subseq [demoTable] demoTable (by decide)⟩

/-- C6: on a failed fetch (connection error or non-2xx status raised by
`raise_for_status`), extraction returns the TransportFailure message at
once, and the result does not depend on the response body — no parsing
happens. -/
theorem fetch_error_transport_failure (deed : String)
    (tables : List HtmlTable) :
    extract_coordinates_from_addisland deed (.error tables) =
      (none, serverProblemMsg) ∧
    ∀ tables2 : List HtmlTable,
      extract_coordinates_from_addisland deed (.error tables) =
        extract_coordinates_from_addisland deed (.error tables2) :=
  ⟨rfl, fun _ => rfl⟩

/-- C7: when the coordinates table is found but zero data rows pass the
numeric-pair check, extraction fails with the NoDataFailure
("no valid coordinates found") message. -/
theorem zero_valid_rows_nodata (deed : String) (tables : List HtmlTable)
    (t : HtmlTable) (hf : tables.find? tableHasMarker = some t)
    (hz : coordinateData t = []) :
    extract_coordinates_from_addisland deed (.ok tables) =
      (none, noCoordinatesMsg) := by
  simp [extract_coordinates_from_addisland, hf, hz]

/-- Witness for C7 at a concrete document whose marked table has no valid
rows. -/
theorem zero_valid_rows_nodata_witness :
    ([markerNoRowsTable].find? tableHasMarker = some markerNoRowsTable ∧
      coordinateData markerNoRowsTable = []) ∧
    extract_coordinates_from_addisland "7" (.ok [markerNoRowsTable]) =
      (none, noCoordinatesMsg) :=
  ⟨⟨by decide, by decide⟩,
    zero_valid_rows_nodata "7" [markerNoRowsTable] markerNoRowsTable
      (by decide) (by decide)⟩

/-- C2: for a non-empty batch, every row of the precalibrated matrix is the
corresponding input row plus the one correction pair obtained by evaluating
the fields at the arithmetic mean position of the whole batch — the same
pair for every row (single evaluation, uniform application), and the row
count is preserved. -/
theorem calibration_single_mean_correction (Fe Fn : ℚ × ℚ → ℚ)
    (m : List (ℚ × ℚ)) (i : ℕ) (_hm : m ≠ []) (hi : i < m.length) :
    (generate_precalibrated_matrix Fe Fn m).length = m.length ∧
    (generate_precalibrated_matrix Fe Fn m).getD i (0, 0) =
      ((m.getD i (0, 0)).1 + Fe (this_mean m),
       (m.getD i (0, 0)).2 + Fn (this_mean m)) :=
  ⟨gen_length Fe Fn m, gen_getD Fe Fn m i hi⟩

/-- Witness for C2 on a concrete two-point batch. -/
theorem calibration_single_mean_correction_witness :
    (([((1 : ℚ), (2 : ℚ)), (3, 4)] : List (ℚ × ℚ)) ≠ [] ∧
      1 < ([((1 : ℚ), (2 : ℚ)), (3, 4)] : List (ℚ × ℚ)).length) ∧
    ((generate_precalibrated_matrix Prod.fst Prod.snd
        [((1 : ℚ), (2 : ℚ)), (3, 4)]).length =
      ([((1 : ℚ), (2 : ℚ)), (3, 4)] : List (ℚ × ℚ)).length ∧
    (generate_precalibrated_matrix Prod.fst Prod.snd
        [((1 : ℚ), (2 : ℚ)), (3, 4)]).getD 1 (0, 0) =
      ((([((1 : ℚ), (2 : ℚ)), (3, 4)] : List (ℚ × ℚ)).getD 1 (0, 0)).1 +
          Prod.fst (this_mean [((1 : ℚ), (2 : ℚ)), (3, 4)]),
       (([((1 : ℚ), (2 : ℚ)), (3, 4)] : List (ℚ × ℚ)).getD 1 (0, 0)).2 +
          Prod.snd (this_mean [((1 : ℚ), (2 : ℚ)), (3, 4)]))) :=
  ⟨⟨by decide, by decide⟩,
    calibration_single_mean_correction Prod.fst Prod.snd
      [((1 : ℚ), (2 : ℚ)), (3, 4)] 1 (by decide) (by decide)⟩

/-- C10: calibration preserves the batch's shape — pairwise differences of
rows are unchanged in both coordinates, whatever the correction fields. -/
theorem calibration_preserves_differences (Fe Fn : ℚ × ℚ → ℚ)
    (m : List (ℚ × ℚ)) (i j : ℕ) (hi : i < m.length) (hj : j < m.length) :
    ((generate_precalibrated_matrix Fe Fn m).getD i (0, 0)).1 -
        ((generate_precalibrated_matrix Fe Fn m).getD j (0, 0)).1 =
      (m.getD i (0, 0)).1 - (m.getD j (0, 0)).1 ∧
    ((generate_precalibrated_matrix Fe Fn m).getD i (0, 0)).2 -
        ((generate_precalibrated_matrix Fe Fn m).getD j (0, 0)).2 =
      (m.getD i (0, 0)).2 - (m.getD j (0, 0)).2 := by
  rw [gen_getD Fe Fn m i hi, gen_getD Fe Fn m j hj]
  constructor <;> ring

/-- Witness for C10 on a concrete two-point batch. -/
theorem calibration_preserves_differences_witness :
    (0 < ([((1 : ℚ), (2 : ℚ)), (3, 7)] : List (ℚ × ℚ)).length ∧
      1 < ([((1 : ℚ), (2 : ℚ)), (3, 7)] : List (ℚ × ℚ)).length) ∧
    (((generate_precalibrated_matrix Prod.fst Prod.snd
          [((1 : ℚ), (2 : ℚ)), (3, 7)]).getD 0 (0, 0)).1 -
        ((generate_precalibrated_matrix Prod.fst Prod.snd
          [((1 : ℚ), (2 : ℚ)), (3, 7)]).getD 1 (0, 0)).1 =
      (([((1 : ℚ), (2 : ℚ)), (3, 7)] : List (ℚ × ℚ)).getD 0 (0, 0)).1 -
        (([((1 : ℚ), (2 : ℚ)), (3, 7)] : List (ℚ × ℚ)).getD 1 (0, 0)).1 ∧
    ((generate_precalibrated_matrix Prod.fst Prod.snd
          [((1 : ℚ), (2 : ℚ)), (3, 7)]).getD 0 (0, 0)).2 -
        ((generate_precalibrated_matrix Prod.fst Prod.snd
          [((1 : ℚ), (2 : ℚ)), (3, 7)]).getD 1 (0, 0)).2 =
      (([((1 : ℚ), (2 : ℚ)), (3, 7)] : List (ℚ × ℚ)).getD 0 (0, 0)).2 -
        (([((1 : ℚ), (2 : ℚ)), (3, 7)] : List (ℚ × ℚ)).getD 1 (0, 0)).2) :=
  ⟨⟨by decide, by decide⟩,
    calibration_preserves_differences Prod.fst Prod.snd
      [((1 : ℚ), (2 : ℚ)), (3, 7)] 0 1 (by decide) (by decide)⟩

/-- C8: the empty input returns `None` immediately, for every projection
function and every pair of correction fields — neither the calibration
model nor any mean is consulted. -/
theorem convert_empty_returns_none (toLatLon : ℚ → ℚ → ℕ → Bool → ℚ × ℚ)
    (Fe Fn : ℚ × ℚ → ℚ) :
    convert_eastings_northings_to_lats_lons toLatLon Fe Fn [] = none := rfl

/-- C4: for non-empty input of length `n`, the pipeline returns `n + 1`
latitudes and longitudes, and the appended last element equals the first
exactly (closed ring). -/
theorem convert_closes_ring (toLatLon : ℚ → ℚ → ℕ → Bool → ℚ × ℚ)
    (Fe Fn : ℚ × ℚ → ℚ) (m : List (ℚ × ℚ)) (hm : m ≠ []) :
    ∃ lats lons,
      convert_eastings_northings_to_lats_lons toLatLon Fe Fn m =
        some (lats, lons) ∧
      lats.length = m.length + 1 ∧ lons.length = m.length + 1 ∧
      lats.head? = lats.getLast? ∧ lons.head? = lons.getLast? := by
  obtain ⟨a, as, rfl⟩ := List.exists_cons_of_ne_nil hm
  refine ⟨_, _, rfl, ?_, ?_, ?_, ?_⟩
  · simp [computed_lats, gen_length]
  · simp [computed_lons, gen_length]
  · rw [List.getLast?_concat]
    simp [computed_lats, generate_precalibrated_matrix]
  · rw [List.getLast?_concat]
    simp [computed_lons, generate_precalibrated_matrix]

/-- Witness for C4 on a concrete three-point batch. -/
theorem convert_closes_ring_witness :
    ([((1 : ℚ), (2 : ℚ)), (3, 4), (5, 6)] : List (ℚ × ℚ)) ≠ [] ∧
    ∃ lats lons,
      convert_eastings_northings_to_lats_lons
          (fun e n _ _ => (e, n)) Prod.fst Prod.snd
          [((1 : ℚ), (2 : ℚ)), (3, 4), (5, 6)] =
        some (lats, lons) ∧
      lats.length = ([((1 : ℚ), (2 : ℚ)), (3, 4), (5, 6)] :
          List (ℚ × ℚ)).length + 1 ∧
      lons.length = ([((1 : ℚ), (2 : ℚ)), (3, 4), (5, 6)] :
          List (ℚ × ℚ)).length + 1 ∧
      lats.head? = lats.getLast? ∧ lons.head? = lons.getLast? :=
  ⟨by decide,
    convert_closes_ring (fun e n _ _ => (e, n)) Prod.fst Prod.snd
      [((1 : ℚ), (2 : ℚ)), (3, 4), (5, 6)] (by decide)⟩

/-- C9: the map-centering point averages over the CLOSED ring, i.e. over
`n + 1` values in which the first boundary point occurs twice: each center
component is (sum of the n open-ring values + the first value) / (n + 1). -/
theorem map_center_counts_first_twice (toLatLon : ℚ → ℚ → ℕ → Bool → ℚ × ℚ)
    (Fe Fn : ℚ × ℚ → ℚ) (m : List (ℚ × ℚ)) (hm : m ≠ []) :
    ∃ lats lons,
      convert_eastings_northings_to_lats_lons toLatLon Fe Fn m =
        some (lats, lons) ∧
      map_center lats lons =
        (((computed_lats toLatLon Fe Fn m).sum +
            (computed_lats toLatLon Fe Fn m).headD 0) / ((m.length : ℚ) + 1),
         ((computed_lons toLatLon Fe Fn m).sum +
            (computed_lons toLatLon Fe Fn m).headD 0) / ((m.length : ℚ) + 1)) := by
  obtain ⟨a, as, rfl⟩ := List.exists_cons_of_ne_nil hm
  refine ⟨_, _, rfl, ?_⟩
  simp [map_center, List.sum_append, computed_lats, computed_lons,
    generate_precalibrated_matrix]
  constructor <;> ring

/-- Witness for C9 on a concrete two-point batch. -/
theorem map_center_counts_first_twice_witness :
    ([((1 : ℚ), (2 : ℚ)), (3, 4)] : List (ℚ × ℚ)) ≠ [] ∧
    ∃ lats lons,
      convert_eastings_northings_to_lats_lons
          (fun e n _ _ => (e, n)) Prod.fst Prod.snd
          [((1 : ℚ), (2 : ℚ)), (3, 4)] =
        some (lats, lons) ∧
      map_center lats lons =
        (((computed_lats (fun e n _ _ => (e, n)) Prod.fst Prod.snd
              [((1 : ℚ), (2 : ℚ)), (3, 4)]).sum +
            (computed_lats (fun e n _ _ => (e, n)) Prod.fst Prod.snd
              [((1 : ℚ), (2 : ℚ)), (3, 4)]).headD 0) /
          ((([((1 : ℚ), (2 : ℚ)), (3, 4)] : List (ℚ × ℚ)).length : ℚ) + 1),
         ((computed_lons (fun e n _ _ => (e, n)) Prod.fst Prod.snd
              [((1 : ℚ), (2 : ℚ)), (3, 4)]).sum +
            (computed_lons (fun e n _ _ => (e, n)) Prod.fst Prod.snd
              [((1 : ℚ), (2 : ℚ)), (3, 4)]).headD 0) /
          ((([((1 : ℚ), (2 : ℚ)), (3, 4)] : List (ℚ × ℚ)).length : ℚ) + 1)) :=
  ⟨by decide,
    map_center_counts_first_twice (fun e n _ _ => (e, n)) Prod.fst Prod.snd
      [((1 : ℚ), (2 : ℚ)), (3, 4)] (by decide)⟩

/-- C5: for every kernel, any zero-smoothing fit of the easting or northing
corrections over the three reference positions has vanishing radial weights
(the positions are not collinear), and evaluating it at each reference
point returns that point's stored correction exactly — error `0`, within
the `1e-6` tolerance. -/
theorem rbf_interpolates_reference_points (φ : ℚ → ℚ)
    (we ce wn cn : Fin 3 → ℚ)
    (he : rbfFit φ easting_calib_req we ce)
    (hn : rbfFit φ northing_calib_req wn cn) :
    we = wZero ∧ wn = wZero ∧
    (∀ i, |rbfEval φ we ce (refPoint i) - easting_calib_req i| ≤
      1 / 1000000) ∧
    (∀ i, |rbfEval φ wn cn (refPoint i) - northing_calib_req i| ≤
      1 / 1000000) := by
  refine ⟨rbfFit_weights_zero φ _ we ce he,
    rbfFit_weights_zero φ _ wn cn hn, fun i => ?_, fun i => ?_⟩
  · rw [he.1 i]
    norm_num
  · rw [hn.1 i]
    norm_num

/-- Witness for C5: the concrete fits `(wZero, cEast)` and `(wZero, cNorth)`
(with the identity in place of the kernel, which the zero weights never
consult). -/
theorem rbf_interpolates_reference_points_witness :
    (rbfFit (fun r => r) easting_calib_req wZero cEast ∧
      rbfFit (fun r => r) northing_calib_req wZero cNorth) ∧
    (wZero = wZero ∧ wZero = wZero ∧
    (∀ i, |rbfEval (fun r => r) wZero cEast (refPoint i) -
      easting_calib_req i| ≤ 1 / 1000000) ∧
    (∀ i, |rbfEval (fun r => r) wZero cNorth (refPoint i) -
      northing_calib_req i| ≤ 1 / 1000000)) :=
  ⟨⟨rbfFit_east _, rbfFit_north _⟩,
    rbf_interpolates_reference_points (fun r => r) wZero cEast wZero cNorth
      (rbfFit_east _) (rbfFit_north _)⟩

end Addisland
